import Mathlib

/-!
# Verification of the ANALYTICS-SUITE core (column resolver + analysis engine)

Shallow embedding of the repository's core logic:

* `config/settings.py` — `AnalysisConfig.COMMON_SALES_COLS`, thresholds.
* `src/data_loader.py` — `DataLoader.get_column_mapping`.
* `src/data_analyzer.py` — `DataAnalyzer.comprehensive_analysis` and its
  sub-analyses (`_get_basic_statistics`, `_analyze_sales`, `_analyze_inventory`,
  `_identify_low_stock`, `_detect_anomalies`, `_generate_recommendations`),
  plus the module-level `_analyze_product_rotation`.

A table is modelled row-major: a list of headers and a list of rows, each row a
list of cell values.  Cell values are numeric (modelled as `ℚ`; the claims under
study never exercise float-specific behaviour), text, or the missing marker
(pandas `NaN`).  Fallible code (Python exceptions: `AttributeError` for calls to
methods that are defined nowhere in the repository, `TypeError` for pandas
comparisons between strings and numbers) is modelled with `Except`.
-/

namespace AnalyticsSuite

/-- A cell value: numeric (pandas `int64`/`float64` entries, modelled as `ℚ`),
text (pandas `object` entries), or the missing marker (`NaN`). -/
inductive Value
  | num (q : ℚ)
  | str (s : String)
  | missing
  deriving DecidableEq, Repr

/-- A table: ordered column headers plus row-major data.
Mirrors the pandas `DataFrame` handed to `DataAnalyzer`. -/
structure Table where
  headers : List String
  rows : List (List Value)
  deriving DecidableEq, Repr

/-- Well-formedness: every row has exactly one cell per header. -/
def Table.WellFormed (t : Table) : Prop :=
  ∀ r ∈ t.rows, r.length = t.headers.length

/-- Python's substring test `pat in s` on lists of characters:
some split of `s` has `pat` as the segment between the two parts. -/
def listContains (hay pat : List Char) : Bool :=
  (List.range (hay.length + 1)).any fun i => (hay.drop i).take pat.length == pat

/-- The column-name test used throughout the source: `possible in col.lower()`
(the keyword literals are already lowercase).  Lowercasing is done per
character; all keyword literals in the source are ASCII, for which Python's
`str.lower` agrees with per-character ASCII lowering. -/
def nameMatches (possible col : String) : Bool :=
  listContains (col.toList.map Char.toLower) possible.toList

/-- The keyword table `AnalysisConfig.COMMON_SALES_COLS` (config/settings.py, lines 24-30),
in Python dict insertion order. -/
def COMMON_SALES_COLS : List (String × List String) :=
  [ ("sales", ["ventas", "sales", "vendas", "cajas vend", "unidades vendidas"]),
    ("product", ["producto", "product", "produto", "item", "sku"]),
    ("category", ["categoria", "category", "rubro", "departamento", "laboratorio"]),
    ("stock", ["stock", "inventario", "cajas stock", "inventory"]),
    ("price", ["precio", "price", "costo", "pvp"]) ]

/-- One role of `DataLoader.get_column_mapping` (src/data_loader.py, lines 175-180):
for each candidate substring in order, collect the columns whose lowered name
contains it and take the head; the first candidate with a hit wins. -/
def resolveRole (possibleNames : List String) (columns : List String) : Option String :=
  possibleNames.findSome? fun possible => columns.find? fun col => nameMatches possible col

/-- Embeds `DataLoader.get_column_mapping` (src/data_loader.py, lines 170-183):
the role → column mapping, roles iterated in `COMMON_SALES_COLS` order,
unresolved roles absent from the mapping. -/
def get_column_mapping (columns : List String) : List (String × String) :=
  COMMON_SALES_COLS.filterMap fun rc =>
    (resolveRole rc.2 columns).map fun col => (rc.1, col)

/-- Python runtime errors the engine can raise.  `attributeError m` models the
exception raised when a method `m` is called on `DataAnalyzer` but is defined
nowhere in the repository; `typeError` models pandas comparisons/arithmetic
between string cells and numbers; `valueError` models boolean-mask indexing
with a wrong-length mask; `keyError` models selection of an absent column. -/
inductive PyErr
  | attributeError (method : String)
  | typeError
  | valueError
  | keyError
  deriving DecidableEq, Repr

/-- Decidable equality of computation outcomes, for evaluating the engine on
concrete tables. -/
instance {ε α : Type} [DecidableEq ε] [DecidableEq α] : DecidableEq (Except ε α) := fun a b =>
  match a, b with
  | .ok x, .ok y => if h : x = y then .isTrue (by rw [h]) else .isFalse (by simp [h])
  | .error e, .error f => if h : e = f then .isTrue (by rw [h]) else .isFalse (by simp [h])
  | .ok _, .error _ => .isFalse (by simp)
  | .error _, .ok _ => .isFalse (by simp)

/-- Cell access within a row (rows of well-formed tables always have the cell). -/
def cell (r : List Value) (j : Nat) : Value := r.getD j .missing

/-- Column extraction: the `j`-th cell of every row. -/
def colValues (t : Table) (j : Nat) : List Value := t.rows.map fun r => cell r j

/-- The table's columns paired with their headers, in order. -/
def namedCols (t : Table) : List (String × List Value) :=
  t.headers.enum.map fun p => (p.2, colValues t p.1)

/-- pandas dtype inference on our values: a column is `int64`/`float64` exactly
when it holds no string cell (an all-missing column is `float64`, hence numeric;
any string makes it `object`). -/
def isNumericCol (vs : List Value) : Bool :=
  vs.all fun v => match v with
    | .str _ => false
    | _ => true

/-- The non-missing numeric entries of a column (pandas `dropna` / skip-NaN). -/
def numsOf (vs : List Value) : List ℚ :=
  vs.filterMap fun v => match v with
    | .num q => some q
    | _ => none

/-- pandas `series <= bound` on one cell: numeric cells compare, the missing
marker compares `False`, a string cell raises `TypeError`. -/
def valLe (v : Value) (bound : ℚ) : Except PyErr Bool :=
  match v with
  | .num q => .ok (decide (q ≤ bound))
  | .missing => .ok false
  | .str _ => .error .typeError

/-- pandas `series >= bound` on one cell; same conventions as `valLe`. -/
def valGe (v : Value) (bound : ℚ) : Except PyErr Bool :=
  match v with
  | .num q => .ok (decide (bound ≤ q))
  | .missing => .ok false
  | .str _ => .error .typeError

/-- Keep the rows whose mask bit is set (pandas boolean indexing). -/
def selectRows (rows : List (List Value)) (mask : List Bool) : List (List Value) :=
  (rows.zip mask).filterMap fun p => if p.2 then some p.1 else none

/-- Sorting by a rational key, ascending: models pandas
`sort_values(column)` (the claims under study do not depend on tie order). -/
def sortByKey {α : Type} (key : α → ℚ) (l : List α) : List α :=
  l.insertionSort fun a b => key a ≤ key b

/-- The sort key `sort_values(stock_cols[0])` uses: the row's stock cell.
Rows selected by the low-stock mask always carry a numeric stock cell, so the
default `0` for non-numeric cells is never exercised there. -/
def stockKey (j : Nat) (r : List Value) : ℚ :=
  match cell r j with
  | .num q => q
  | _ => 0

/-- The mask `(df[stock] <= threshold) & (df[stock] >= 0)` of
`_identify_low_stock` (src/data_analyzer.py line 91). -/
def lowStockMask (t : Table) (j : Nat) (threshold : ℚ) : Except PyErr (List Bool) :=
  t.rows.mapM fun r => do
    let le ← valLe (cell r j) threshold
    let ge ← valGe (cell r j) 0
    pure (le && ge)

/-- Embeds `DataAnalyzer._identify_low_stock` (src/data_analyzer.py, lines 84-92):
take the first column whose lowered name contains `"stock"`; with no such
column return an empty frame; otherwise keep the rows whose stock cell lies in
`[0, threshold]` and sort them by that cell ascending.  Default threshold 5. -/
def identify_low_stock (t : Table) (threshold : ℚ) : Except PyErr (List (List Value)) :=
  match t.headers.findIdx? (nameMatches "stock") with
  | none => .ok []
  | some j => do
      let mask ← lowStockMask t j threshold
      pure (sortByKey (stockKey j) (selectRows t.rows mask))

/-- Sorting rationals ascending (used by median/quantile/top-N). -/
def sortQ (ns : List ℚ) : List ℚ := sortByKey id ns

/-- pandas `series.sum()`: missing entries are skipped, an empty column sums to 0. -/
def pdSum (vs : List Value) : ℚ := (numsOf vs).sum

/-- pandas `series.mean()`: skip missing; NaN when no value remains. -/
def pdMean (vs : List Value) : Value :=
  let ns := numsOf vs
  if ns.isEmpty then .missing else .num (ns.sum / ns.length)

/-- pandas `series.median()`: skip missing; NaN when no value remains; the
middle element for odd counts, the mean of the two middle elements for even. -/
def pdMedian (vs : List Value) : Value :=
  let ns := sortQ (numsOf vs)
  let n := ns.length
  if n = 0 then .missing
  else if n % 2 = 1 then .num (ns.getD (n / 2) 0)
  else .num ((ns.getD (n / 2 - 1) 0 + ns.getD (n / 2) 0) / 2)

/-- The square of pandas `series.std()` (default `ddof = 1`, the SAMPLE
variance): skip missing; NaN on fewer than 2 values.  The source stores
`std = √(this)`; the embedding carries the variance because the square root of
a rational is irrational in general, and `√` is strictly monotone on `[0, ∞)`,
so equality/comparison facts about `std` transfer exactly. -/
def pdVarSample (vs : List Value) : Value :=
  let ns := numsOf vs
  if ns.length < 2 then .missing
  else
    let n : ℚ := ns.length
    let μ := ns.sum / n
    .num ((ns.map fun x => (x - μ) ^ 2).sum / (n - 1))

/-- The population variance, `ddof = 0` — the square of the POPULATION standard
deviation that the spec's sales-analysis section names.  This definition
follows the spec's words, for comparison with `pdVarSample` (what the code
computes); it is not part of the source. -/
def populationVariance (vs : List Value) : Value :=
  let ns := numsOf vs
  if ns.isEmpty then .missing
  else
    let n : ℚ := ns.length
    let μ := ns.sum / n
    .num ((ns.map fun x => (x - μ) ^ 2).sum / n)

/-- pandas `series.max()`: skip missing; NaN when no value remains. -/
def pdMax (vs : List Value) : Value :=
  match numsOf vs with
  | [] => .missing
  | x :: xs => .num (xs.foldl max x)

/-- pandas `series.min()`: skip missing; NaN when no value remains. -/
def pdMin (vs : List Value) : Value :=
  match numsOf vs with
  | [] => .missing
  | x :: xs => .num (xs.foldl min x)

/-- Embeds `(series == 0).sum()`: the count of exact-zero cells (missing is never
equal to 0; a string cell compares unequal, without raising). -/
def zeroCount (vs : List Value) : Nat := vs.countP (· == .num 0)

/-- Modelled from the spec: `_get_top_products` is called by `_analyze_sales`
(src/data_analyzer.py line 66) but is defined nowhere in the repository.  The
spec says the sales report includes "the top-N rows by that column's value
(N configurable, default around 10-20)" and `AnalysisConfig.TOP_N_PRODUCTS = 20`,
so we model it as the 20 largest values of the column, in descending order. -/
def get_top_products (vs : List Value) : List ℚ :=
  ((sortQ (numsOf vs)).reverse).take 20

/-- The per-column record `_analyze_sales` builds (src/data_analyzer.py,
lines 58-67).  `std_sq` carries the square of the stored `'std'` entry
(see `pdVarSample`). -/
structure SalesAgg where
  total : ℚ
  mean : Value
  median : Value
  std_sq : Value
  max : Value
  min : Value
  zero_sales : Nat
  top_products : List ℚ
  deriving DecidableEq, Repr

/-- All eight aggregates of one sales column. -/
def salesAgg (vs : List Value) : SalesAgg :=
  ⟨pdSum vs, pdMean vs, pdMedian vs, pdVarSample vs, pdMax vs, pdMin vs,
   zeroCount vs, get_top_products vs⟩

/-- The sales-column name test of `_analyze_sales` (src/data_analyzer.py
line 48): `'vent' in col.lower() or 'sales' in col.lower()`. -/
def isSalesName (col : String) : Bool :=
  nameMatches "vent" col || nameMatches "sales" col

/-- What `_analyze_sales` returns: either the in-band error dict
`{'error': ...}` (no sales-named column at all) or one aggregate record per
NUMERIC sales-named column (non-numeric ones are skipped silently). -/
inductive SalesResult
  | errorEntry (msg : String)
  | entries (l : List (String × SalesAgg))
  deriving DecidableEq, Repr

/-- Embeds `DataAnalyzer._analyze_sales` (src/data_analyzer.py, lines 46-69).
Column access `self.df[col]` is by name; the embedding pairs each header with
its own column, which coincides for tables with distinct headers (the data
model's invariant). -/
def analyze_sales (t : Table) : SalesResult :=
  let salesCols := (namedCols t).filter fun nc => isSalesName nc.1
  if salesCols.isEmpty then .errorEntry "No se encontraron columnas de ventas"
  else .entries (salesCols.filterMap fun nc =>
    if isNumericCol nc.2 then some (nc.1, salesAgg nc.2) else none)

/-- The restock alert `f"🚨 {n} productos necesitan reposición urgente"`. -/
def stockRecMsg (n : Nat) : String :=
  "🚨 " ++ toString n ++ " productos necesitan reposición urgente"

/-- The rotation alert `f"📊 {n} productos sin ventas - considerar rotación"`. -/
def rotationRecMsg (n : Nat) : String :=
  "📊 " ++ toString n ++ " productos sin ventas - considerar rotación"

/-- The missing-data alert `f"⚠️  {n} valores faltantes detectados"`. -/
def missingRecMsg (n : Nat) : String :=
  "⚠️  " ++ toString n ++ " valores faltantes detectados"

/-- The column `sales_cols[0]` of `_generate_recommendations` (src/data_analyzer.py
line 129): the first column whose lowered name contains `'vent'`. -/
def firstVentIdx (t : Table) : Option Nat := t.headers.findIdx? (nameMatches "vent")

/-- Embeds `(df[col] == 0).sum()` for the column at index `j`. -/
def zeroCountAt (t : Table) (j : Nat) : Nat := zeroCount (colValues t j)

/-- Embeds `df.isnull().sum().sum()`: the total number of missing cells. -/
def missingTotal (t : Table) : Nat :=
  (t.rows.map fun r => r.countP (· == .missing)).sum

/-- Rule 1 of `_generate_recommendations` (lines 124-126): restock alert when
the low-stock frame is nonempty. -/
def stock_recs (low : List (List Value)) : List String :=
  if low.length > 0 then [stockRecMsg low.length] else []

/-- Rule 2 of `_generate_recommendations` (lines 129-133): rotation alert when
a 'vent' column exists and its zero count strictly exceeds 30% of the rows.
The source compares against the float `len(df) * 0.3`; the embedding uses the
exact rational `3/10` (at the spec's 10-row boundary the double product
`10 * 0.3` rounds to exactly `3.0`, so the two comparisons agree there). -/
def sales_recs (t : Table) : List String :=
  match firstVentIdx t with
  | none => []
  | some j =>
      let z := zeroCountAt t j
      if (z : ℚ) > (t.rows.length : ℚ) * (3 / 10) then [rotationRecMsg z] else []

/-- Rule 3 of `_generate_recommendations` (lines 136-138): missing-data alert
when any cell is missing. -/
def missing_recs (t : Table) : List String :=
  if missingTotal t > 0 then [missingRecMsg (missingTotal t)] else []

/-- Embeds `DataAnalyzer._generate_recommendations` (src/data_analyzer.py,
lines 119-140): the three independent rules, evaluated in the fixed order
stock → sales → missing-data, their alerts appended in that order. -/
def generate_recommendations (t : Table) : Except PyErr (List String) := do
  let low ← identify_low_stock t 5
  pure (stock_recs low ++ sales_recs t ++ missing_recs t)

/-- Modelled from the spec: `_find_column` is called by the module-level
rotation analysis (src/data_analyzer.py lines 169-170) but is defined nowhere
in the repository.  Per the spec's Column Resolver contract we scan candidate
substrings in priority order and return the first column whose lowercased name
contains the candidate (here as a column index; `None` when nothing matches). -/
def find_column (t : Table) (candidates : List String) : Option Nat :=
  candidates.findSome? fun cand => t.headers.findIdx? (nameMatches cand)

/-- Embeds `series.replace(0, 1)` on one cell: an exact-zero numeric cell becomes 1;
everything else (other numbers, missing, strings) is untouched. -/
def replaceZero : Value → Value
  | .num q => if q = 0 then .num 1 else .num q
  | v => v

/-- pandas cell division.  Missing propagates; a string operand raises
`TypeError`.  A zero numeric divisor would give ±inf/NaN in pandas, modelled as
the missing marker — in the rotation computation the divisor has already gone
through `replaceZero`, so that branch is unreachable there. -/
def valDiv : Value → Value → Except PyErr Value
  | .num a, .num b => .ok (if b = 0 then .missing else .num (a / b))
  | .missing, .num _ => .ok .missing
  | .num _, .missing => .ok .missing
  | .missing, .missing => .ok .missing
  | _, _ => .error .typeError

/-- Embeds `pd.cut(·, bins=[-1, 0.1, 0.5, 1, 5, inf], labels=[...])` on one rotation
cell (src/data_analyzer.py lines 175-179): left-exclusive/right-inclusive
bins; values ≤ -1 and non-numeric cells get no label. -/
def estadoRotacion : Value → Option String
  | .num q =>
      if q ≤ -1 then none
      else if q ≤ 1 / 10 then some "Sin ventas"
      else if q ≤ 1 / 2 then some "Baja"
      else if q ≤ 1 then some "Media"
      else if q ≤ 5 then some "Alta"
      else some "Muy Alta"
  | _ => none

/-- The frame `_analyze_product_rotation` returns:
`df[['Producto', 'Laboratorio', sales_col, stock_col, 'rotacion', 'estado_rotacion']]`. -/
structure RotationFrame where
  producto : List Value
  laboratorio : List Value
  sales : List Value
  stock : List Value
  rotacion : List Value
  estado_rotacion : List (Option String)
  deriving DecidableEq, Repr

/-- The module-level `_analyze_product_rotation` (src/data_analyzer.py,
lines 167-182): find the sales and stock columns (via the spec-modelled
`find_column`); if either is absent return the empty frame (`none`); otherwise
divide sales by zero-replaced stock per row, bucket the quotients, and select
the output columns — selection raises `KeyError` when the hardcoded `Producto`
or `Laboratorio` columns are absent. -/
def analyze_product_rotation (t : Table) : Except PyErr (Option RotationFrame) :=
  match find_column t ["cajas vend. total"], find_column t ["cajas stock total"] with
  | some sj, some kj => do
      let rot ← t.rows.mapM fun r => valDiv (cell r sj) (replaceZero (cell r kj))
      let estado := rot.map estadoRotacion
      match t.headers.findIdx? (· == "Producto"), t.headers.findIdx? (· == "Laboratorio") with
      | some pj, some lj =>
          pure (some ⟨colValues t pj, colValues t lj, colValues t sj, colValues t kj, rot, estado⟩)
      | _, _ => .error .keyError
  | _, _ => pure none

/-- Embeds `duplicated().sum()`: count the rows that are exact value-for-value copies
of an earlier row (the missing marker equals itself, as in pandas). -/
def dupCountAux : List (List Value) → List (List Value) → Nat
  | _, [] => 0
  | seen, r :: rest => (if r ∈ seen then 1 else 0) + dupCountAux (r :: seen) rest

/-- The record `_get_basic_statistics` builds (src/data_analyzer.py, lines 29-44).  The
`memory_usage_mb` entry (an interpreter-dependent byte count) is outside the
data model and omitted. -/
structure BasicStats where
  total_rows : Nat
  total_columns : Nat
  missing_values : Nat
  duplicate_rows : Nat
  numeric_columns : Nat
  categorical_columns : Nat
  deriving DecidableEq, Repr

/-- Embeds `DataAnalyzer._get_basic_statistics`. -/
def get_basic_statistics (t : Table) : BasicStats :=
  ⟨t.rows.length, t.headers.length, missingTotal t, dupCountAux [] t.rows,
   ((namedCols t).filter fun nc => isNumericCol nc.2).length,
   ((namedCols t).filter fun nc => !isNumericCol nc.2).length⟩

/-- pandas `series.quantile(q)` (linear interpolation, missing dropped):
with sorted values `s` of length `n`, position `h = (n-1)·q`, the result is
`s[⌊h⌋] + (h - ⌊h⌋)·(s[⌊h⌋+1] - s[⌊h⌋])`; NaN for an empty series. -/
def quantileLinear (ns : List ℚ) (q : ℚ) : Value :=
  let s := sortQ ns
  let n := s.length
  if n = 0 then .missing
  else
    let h : ℚ := ((n - 1 : ℕ) : ℚ) * q
    let l : ℕ := h.floor.toNat
    let lo := s.getD l 0
    let hi := s.getD (min (l + 1) (n - 1)) 0
    .num (lo + (h - l) * (hi - lo))

/-- The per-column record of `_detect_anomalies` (src/data_analyzer.py,
lines 111-115). -/
structure AnomalyInfo where
  z_score_anomalies : Nat
  iqr_anomalies : Nat
  samples : List (List Value)
  deriving DecidableEq, Repr

/-- Embeds `DataAnalyzer._detect_anomalies` (src/data_analyzer.py, lines 94-117),
per numeric column.  `scipy.stats.zscore` standardizes with `ddof = 0` over the
missing-dropped values; `self.df[z_scores > 3]` indexes the full frame with
that mask, so a column whose dropped length differs from the row count raises
(wrong-length boolean mask).  `|z| > 3` is expressed as `(x-μ)² > 9σ²`, which
agrees with the float comparison including the degenerate σ = 0 case (NaN
compares False).  The IQR rule flags rows outside
`[Q1 - 1.5·IQR, Q3 + 1.5·IQR]` and samples the first 5 flagged rows
(`head().to_dict('records')`). -/
def detect_anomalies (t : Table) : Except PyErr (List (String × AnomalyInfo)) :=
  ((namedCols t).filter fun nc => isNumericCol nc.2).mapM fun nc => do
    let ns := numsOf nc.2
    if ns.length ≠ t.rows.length then
      .error .valueError
    else
      let n : ℚ := ns.length
      let μ := ns.sum / n
      let σsq := (ns.map fun x => (x - μ) ^ 2).sum / n
      let zCount := ns.countP fun x => decide ((x - μ) ^ 2 > 9 * σsq)
      let bounds : Option (ℚ × ℚ) :=
        match quantileLinear ns (1 / 4), quantileLinear ns (3 / 4) with
        | .num a, .num b => some (a - 3 / 2 * (b - a), b + 3 / 2 * (b - a))
        | _, _ => none
      let flagged : List (List Value) :=
        match bounds with
        | none => []
        | some (lo, hi) =>
            (t.rows.zip nc.2).filterMap fun (p : List Value × Value) =>
              match p.2 with
              | .num x => if x < lo || x > hi then some p.1 else none
              | _ => none
      pure (nc.1, ⟨zCount, flagged.length, flagged.take 5⟩)

/-- Models the fact that `comprehensive_analysis` line 23 calls `self._detect_trends()`, a method
defined nowhere in the repository: the attribute lookup raises. -/
def detect_trends (_ : Table) : Except PyErr Unit :=
  .error (.attributeError "_detect_trends")

/-- The dict `_analyze_inventory` tries to build (src/data_analyzer.py,
lines 71-82).  Three of its four entries come from methods
(`_identify_overstock`, `_calculate_turnover`, `_perform_abc_analysis`) that
are defined nowhere in the repository, so the dict literal can never finish
evaluating — witnessed by the uninhabited `overstock_items` field. -/
structure InventoryAnalysis where
  low_stock_items : List (List Value)
  overstock_items : Empty

/-- Embeds `DataAnalyzer._analyze_inventory`: Python evaluates the dict literal's
values in order, so `_identify_low_stock` runs first (and may itself raise a
`TypeError` on a string-valued stock column); then the attribute lookup
`self._identify_overstock` raises `AttributeError`. -/
def analyze_inventory (t : Table) : Except PyErr InventoryAnalysis := do
  let _low ← identify_low_stock t 5
  .error (.attributeError "_identify_overstock")

/-- The bundle `comprehensive_analysis` tries to build.  The `'trends'` entry
has no modellable value (its producer does not exist); it is represented by
the `Unit` result of `detect_trends` being sequenced, and the
`inventory_analysis` field is itself uninhabited. -/
structure Analysis where
  basic_stats : BasicStats
  sales_analysis : SalesResult
  inventory_analysis : InventoryAnalysis
  anomalies : List (String × AnomalyInfo)
  recommendations : List String

/-- Embeds `DataAnalyzer.comprehensive_analysis` (src/data_analyzer.py, lines 16-27):
the sub-analyses evaluated in source order. -/
def comprehensive_analysis (t : Table) : Except PyErr Analysis := do
  let bs := get_basic_statistics t
  let sa := analyze_sales t
  let inv ← analyze_inventory t
  let _tr ← detect_trends t
  let an ← detect_anomalies t
  let recs ← generate_recommendations t
  pure ⟨bs, sa, inv, an, recs⟩

/-- Whether a computation raised. -/
def isErr {α : Type} : Except PyErr α → Bool
  | .error _ => true
  | .ok _ => false

/-! ## Helper lemmas -/

theorem resolveRole_eq_none_iff (cands cols : List String) :
    resolveRole cands cols = none ↔ ∀ p ∈ cands, ∀ c ∈ cols, nameMatches p c = false := by
  unfold resolveRole
  rw [List.findSome?_eq_none_iff]
  constructor
  · intro h p hp c hc
    have h2 := h p hp
    rw [List.find?_eq_none] at h2
    simpa using h2 c hc
  · intro h p hp
    rw [List.find?_eq_none]
    intro c hc
    simp [h p hp c hc]

theorem resolveRole_eq_some_iff (cands cols : List String) (col : String) :
    resolveRole cands cols = some col ↔
      ∃ l₁ p l₂, cands = l₁ ++ p :: l₂ ∧
        (∃ m₁ m₂, cols = m₁ ++ col :: m₂ ∧ nameMatches p col = true ∧
          ∀ c ∈ m₁, nameMatches p c = false) ∧
        ∀ p' ∈ l₁, ∀ c ∈ cols, nameMatches p' c = false := by
  unfold resolveRole
  rw [List.findSome?_eq_some_iff]
  constructor
  · rintro ⟨l₁, p, l₂, rfl, hfind, hnone⟩
    refine ⟨l₁, p, l₂, rfl, ?_, ?_⟩
    · rw [List.find?_eq_some] at hfind
      obtain ⟨hp, m₁, m₂, rfl, hm⟩ := hfind
      exact ⟨m₁, m₂, rfl, hp, fun c hc => by simpa using hm c hc⟩
    · intro p' hp' c hc
      have h2 := hnone p' hp'
      rw [List.find?_eq_none] at h2
      simpa using h2 c hc
  · rintro ⟨l₁, p, l₂, rfl, ⟨m₁, m₂, rfl, hp, hm⟩, hnone⟩
    refine ⟨l₁, p, l₂, rfl, ?_, ?_⟩
    · rw [List.find?_eq_some]
      exact ⟨hp, m₁, m₂, rfl, fun c hc => by simp [hm c hc]⟩
    · intro p' hp'
      rw [List.find?_eq_none]
      intro c hc
      simp [hnone p' hp' c hc]

theorem find?_middle_skip {α : Type} (p : α → Bool) (xs ys : List α) (c : α)
    (hc : p c = false) : (xs ++ c :: ys).find? p = (xs ++ ys).find? p := by
  induction xs with
  | nil => simp [List.find?_cons, hc]
  | cons x xs ih =>
      by_cases hx : p x
      · simp [List.find?_cons, hx]
      · simp only [List.cons_append, List.find?_cons, hx]
        exact ih

theorem resolveRole_skip_unmatched (cands xs ys : List String) (c : String)
    (hc : ∀ p ∈ cands, nameMatches p c = false) :
    resolveRole cands (xs ++ c :: ys) = resolveRole cands (xs ++ ys) := by
  unfold resolveRole
  induction cands with
  | nil => rfl
  | cons p ps ih =>
      rw [List.findSome?_cons, List.findSome?_cons,
        find?_middle_skip _ xs ys c (hc p (by simp))]
      cases h : (xs ++ ys).find? fun col => nameMatches p col with
      | some v => simp [h]
      | none => simpa [h] using ih fun q hq => hc q (by simp [hq])

/-- The pointwise low-stock indicator the mask computes on a numeric stock
cell: `cell ≤ threshold` and `cell ≥ 0`, `false` on the missing marker. -/
def lowBit (j : Nat) (threshold : ℚ) (r : List Value) : Bool :=
  match cell r j with
  | .num q => decide (q ≤ threshold) && decide (0 ≤ q)
  | _ => false

theorem lowBit_eq_true_iff (j : Nat) (thr : ℚ) (r : List Value) :
    lowBit j thr r = true ↔ ∃ q, cell r j = .num q ∧ 0 ≤ q ∧ q ≤ thr := by
  unfold lowBit
  cases h : cell r j <;> simp [h, and_comm]

theorem lowStockMask_ok (hs : List String) (rows : List (List Value)) (j : Nat) (thr : ℚ)
    (h : ∀ r ∈ rows, ∀ s, cell r j ≠ Value.str s) :
    lowStockMask ⟨hs, rows⟩ j thr = .ok (rows.map (lowBit j thr)) := by
  unfold lowStockMask
  induction rows with
  | nil => rfl
  | cons r rs ih =>
      have hr := h r (by simp)
      have hrs := ih fun r' h' s => h r' (by simp [h']) s
      rw [List.mapM_cons, hrs]
      cases hc : cell r j with
      | num q => simp [valLe, valGe, hc, lowBit, bind, Except.bind, pure, Except.pure]
      | str s => exact absurd hc (hr s)
      | missing => simp [valLe, valGe, hc, lowBit, bind, Except.bind, pure, Except.pure]

theorem selectRows_map_eq_filter (rows : List (List Value)) (bit : List Value → Bool) :
    selectRows rows (rows.map bit) = rows.filter bit := by
  induction rows with
  | nil => rfl
  | cons r rs ih =>
      by_cases h : bit r <;> simp [selectRows, h, ih] <;>
        simpa [selectRows] using ih

theorem mem_sortByKey {α : Type} (key : α → ℚ) (l : List α) (a : α) :
    a ∈ sortByKey key l ↔ a ∈ l :=
  (List.perm_insertionSort _ l).mem_iff

theorem sortByKey_sorted {α : Type} (key : α → ℚ) (l : List α) :
    (sortByKey key l).Sorted fun a b => key a ≤ key b := by
  haveI : IsTotal α fun a b => key a ≤ key b := ⟨fun a b => le_total _ _⟩
  haveI : IsTrans α fun a b => key a ≤ key b := ⟨fun _ _ _ h₁ h₂ => le_trans h₁ h₂⟩
  exact List.sorted_insertionSort _ l

theorem numericCol_no_str (t : Table) (j : Nat)
    (hnum : isNumericCol (colValues t j) = true) :
    ∀ r ∈ t.rows, ∀ s, cell r j ≠ Value.str s := by
  intro r hr s hcontra
  unfold isNumericCol colValues at hnum
  rw [List.all_eq_true] at hnum
  have := hnum (cell r j) (List.mem_map_of_mem _ hr)
  rw [hcontra] at this
  simp at this

theorem identify_low_stock_eq (t : Table) (thr : ℚ) (j : Nat)
    (hj : t.headers.findIdx? (nameMatches "stock") = some j)
    (hnum : isNumericCol (colValues t j) = true) :
    identify_low_stock t thr = .ok (sortByKey (stockKey j) (t.rows.filter (lowBit j thr))) := by
  unfold identify_low_stock
  rw [hj]
  dsimp only
  obtain ⟨hs, rows⟩ := t
  rw [lowStockMask_ok hs rows j thr (numericCol_no_str ⟨hs, rows⟩ j hnum)]
  simp [bind, Except.bind, pure, Except.pure, selectRows_map_eq_filter]

/-! ## Claim theorems -/

/-- C2: the resolver maps a role to the first column whose lowercased name
contains a candidate substring, iterating candidates (priority order) as the
outer loop and columns (left-to-right) as the inner loop, first hit winning;
with no match at all the role is left unresolved (and no error is produced —
the resolver is a total function into `Option`). -/
theorem C2_resolver_priority_first_hit (cands cols : List String) :
    (∀ col, resolveRole cands cols = some col ↔
      ∃ l₁ p l₂, cands = l₁ ++ p :: l₂ ∧
        (∃ m₁ m₂, cols = m₁ ++ col :: m₂ ∧ nameMatches p col = true ∧
          ∀ c ∈ m₁, nameMatches p c = false) ∧
        ∀ p' ∈ l₁, ∀ c ∈ cols, nameMatches p' c = false) ∧
    (resolveRole cands cols = none ↔ ∀ p ∈ cands, ∀ c ∈ cols, nameMatches p c = false) :=
  ⟨fun col => resolveRole_eq_some_iff cands cols col, resolveRole_eq_none_iff cands cols⟩

/-- C9: removing a column whose name is matched by no role's candidate list
leaves the resolution of every role unchanged. -/
theorem C9_drop_unmatched_column_preserves_mapping (xs ys : List String) (c : String)
    (h : ∀ rc ∈ COMMON_SALES_COLS, ∀ p ∈ rc.2, nameMatches p c = false) :
    get_column_mapping (xs ++ c :: ys) = get_column_mapping (xs ++ ys) := by
  unfold get_column_mapping
  apply List.filterMap_congr
  intro rc hrc
  rw [resolveRole_skip_unmatched rc.2 xs ys c (h rc hrc)]

/-- Witness for C9 at a concrete table: dropping the unmatched column
`"Fecha"` from `["Producto", "Fecha", "Stock"]` leaves the mapping unchanged. -/
theorem C9_witness :
    (∀ rc ∈ COMMON_SALES_COLS, ∀ p ∈ rc.2, nameMatches p "Fecha" = false) ∧
    get_column_mapping ["Producto", "Fecha", "Stock"] =
      get_column_mapping ["Producto", "Stock"] :=
  ⟨by decide, C9_drop_unmatched_column_preserves_mapping ["Producto"] ["Stock"] "Fecha" (by decide)⟩

/-- The table of the spec's end-to-end scenario: columns
[Product, Laboratory, "Cajas Vend. Total", "Cajas Stock Total"], rows
(A, LabX, 10, 2), (B, LabY, 0, 0), (C, LabX, 5, 50). -/
def demoPharmacyTable : Table :=
  ⟨["Product", "Laboratory", "Cajas Vend. Total", "Cajas Stock Total"],
   [[.str "A", .str "LabX", .num 10, .num 2],
    [.str "B", .str "LabY", .num 0, .num 0],
    [.str "C", .str "LabX", .num 5, .num 50]]⟩

/-- The stock column of the spec's low-stock boundary test: [-1, 0, 5, 6]. -/
def demoStockTable : Table :=
  ⟨["Stock"], [[.num (-1)], [.num 0], [.num 5], [.num 6]]⟩

/-- The rows whose cell in column `j` is exactly zero — the row set whose
indicator `(df[col] == 0)` the engine sums into its zero-sales count. -/
def zeroSalesRows (t : Table) (j : Nat) : List (List Value) :=
  t.rows.filter fun r => cell r j == .num 0

theorem analyze_inventory_raises (t : Table) : isErr (analyze_inventory t) = true := by
  unfold analyze_inventory
  cases h : identify_low_stock t 5 <;> simp [h, isErr, bind, Except.bind]

/-- C1: REFUTED (code_bug).  `comprehensive_analysis` raises on EVERY table,
well-formed or not: `_analyze_inventory` calls `self._identify_overstock()`
(and later `self._calculate_turnover()`, `self._perform_abc_analysis()`, and
`comprehensive_analysis` itself calls `self._detect_trends()`), methods that
are defined nowhere in the repository, so the attribute lookup raises
`AttributeError` — unless the low-stock scan raised a `TypeError` even earlier.
On the spec's own demonstration table the run dies with
`AttributeError: _identify_overstock`. -/
theorem C1_comprehensive_analysis_always_raises :
    (∀ t : Table, isErr (comprehensive_analysis t) = true) ∧
    comprehensive_analysis demoPharmacyTable = .error (.attributeError "_identify_overstock") := by
  constructor
  · intro t
    unfold comprehensive_analysis
    cases h : analyze_inventory t with
    | error e => simp [h, isErr, bind, Except.bind]
    | ok v => exact v.overstock_items.elim
  · rfl

/-- C3 counterexample: on the claim's exact table the role mapping does NOT
resolve all four roles — `"Laboratory"` contains none of the category
candidates (`"laboratorio"` is Spanish) — and the recommendation list does NOT
contain a rotation alert: the rotation rule looks for a column whose lowered
name contains `'vent'`, and `"cajas vend. total"` does not (it has `"vend."`),
so the list is exactly the restock alert. -/
theorem C3_counterexample :
    (get_column_mapping demoPharmacyTable.headers).lookup "category" = none ∧
    generate_recommendations demoPharmacyTable =
      .ok ["🚨 2 productos necesitan reposición urgente"] :=
  ⟨by decide, by rfl⟩

/-- C3 (amended): on the demonstration table the mapping resolves product,
sales and stock (category stays unresolved); the low-stock set at threshold 5
is exactly rows A and B, returned stock-ascending as [B, A]; the rows with an
exact-zero value in the resolved sales column are exactly {B} (and the
engine's zero-sales count is their count); and the recommendation list is
exactly the restock alert — no rotation alert fires. -/
theorem C3_demo_scenario_amended :
    get_column_mapping demoPharmacyTable.headers =
      [("sales", "Cajas Vend. Total"), ("product", "Product"), ("stock", "Cajas Stock Total")] ∧
    identify_low_stock demoPharmacyTable 5 =
      .ok [[.str "B", .str "LabY", .num 0, .num 0], [.str "A", .str "LabX", .num 10, .num 2]] ∧
    zeroSalesRows demoPharmacyTable 2 = [[.str "B", .str "LabY", .num 0, .num 0]] ∧
    zeroCountAt demoPharmacyTable 2 = (zeroSalesRows demoPharmacyTable 2).length ∧
    generate_recommendations demoPharmacyTable = .ok [stockRecMsg 2] :=
  ⟨by decide, by decide, by decide, by decide, by decide⟩

/-- C4: for every table with a (numeric) stock column and every threshold, the
low-stock result succeeds and holds exactly the rows whose stock cell lies in
the closed interval [0, threshold]; in particular negative stock is never
flagged. -/
theorem C4_low_stock_closed_interval (t : Table) (thr : ℚ) (j : Nat)
    (hj : t.headers.findIdx? (nameMatches "stock") = some j)
    (hnum : isNumericCol (colValues t j) = true) :
    ∃ flagged, identify_low_stock t thr = .ok flagged ∧
      ∀ r, r ∈ flagged ↔ r ∈ t.rows ∧ ∃ q, cell r j = .num q ∧ 0 ≤ q ∧ q ≤ thr := by
  refine ⟨_, identify_low_stock_eq t thr j hj hnum, fun r => ?_⟩
  rw [mem_sortByKey, List.mem_filter, lowBit_eq_true_iff]

/-- Witness for C4 at the spec's boundary column [-1, 0, 5, 6] with
threshold 5: the hypotheses hold, the characterization applies, and the
flagged rows are exactly those with values 0 and 5. -/
theorem C4_witness :
    (demoStockTable.headers.findIdx? (nameMatches "stock") = some 0 ∧
      isNumericCol (colValues demoStockTable 0) = true ∧
      ∃ flagged, identify_low_stock demoStockTable 5 = .ok flagged ∧
        ∀ r, r ∈ flagged ↔ r ∈ demoStockTable.rows ∧
          ∃ q, cell r 0 = .num q ∧ 0 ≤ q ∧ q ≤ 5) ∧
    identify_low_stock demoStockTable 5 = .ok [[.num 0], [.num 5]] :=
  ⟨⟨by decide, by decide, C4_low_stock_closed_interval demoStockTable 5 0 (by decide) (by decide)⟩,
   by decide⟩

/-- C10: whenever a table has a stock column (index `j` the first stock-named
header) and the low-stock scan succeeds, the returned rows are sorted
ascending by that column's value. -/
theorem C10_low_stock_sorted_ascending (t : Table) (thr : ℚ) (j : Nat)
    (flagged : List (List Value))
    (hj : t.headers.findIdx? (nameMatches "stock") = some j)
    (hok : identify_low_stock t thr = .ok flagged) :
    flagged.Sorted fun a b => stockKey j a ≤ stockKey j b := by
  unfold identify_low_stock at hok
  rw [hj] at hok
  dsimp only at hok
  cases hm : lowStockMask t j thr with
  | error e => rw [hm] at hok; simp [bind, Except.bind] at hok
  | ok mask =>
      rw [hm] at hok
      simp only [bind, Except.bind, pure, Except.pure, Except.ok.injEq] at hok
      rw [← hok]
      exact sortByKey_sorted _ _

/-- Witness for C10 at the boundary table: the flagged rows [[0], [5]] are
sorted ascending by the stock column. -/
theorem C10_witness :
    (demoStockTable.headers.findIdx? (nameMatches "stock") = some 0 ∧
      identify_low_stock demoStockTable 5 = .ok [[.num 0], [.num 5]]) ∧
    ([[Value.num 0], [Value.num 5]] : List (List Value)).Sorted
      fun a b => stockKey 0 a ≤ stockKey 0 b :=
  ⟨⟨by decide, by decide⟩,
   C10_low_stock_sorted_ascending demoStockTable 5 0 _ (by decide) (by decide)⟩

/-- Ten rows, four of them with zero sales (40% > 30%). -/
def demoZeroHeavyTable : Table :=
  ⟨["Ventas"], List.replicate 4 [Value.num 0] ++ List.replicate 6 [Value.num 1]⟩

/-- Ten rows, exactly three of them with zero sales (30%, not exceeding). -/
def demoZeroBoundaryTable : Table :=
  ⟨["Ventas"], List.replicate 3 [Value.num 0] ++ List.replicate 7 [Value.num 1]⟩

/-- C7: whenever the low-stock scan succeeds, the recommendation list is the
concatenation of the three independent rule outputs in the fixed order
stock → sales → missing-data (no rule suppresses another), and the rotation
rule's output is nonempty exactly when a 'vent'-named column exists and its
zero count strictly exceeds 30% of the row count. -/
theorem C7_recommendation_rules (t : Table) (low : List (List Value))
    (hlow : identify_low_stock t 5 = .ok low) :
    generate_recommendations t = .ok (stock_recs low ++ sales_recs t ++ missing_recs t) ∧
    (sales_recs t ≠ [] ↔ ∃ j, firstVentIdx t = some j ∧
      (zeroCountAt t j : ℚ) > (t.rows.length : ℚ) * (3 / 10)) := by
  constructor
  · unfold generate_recommendations
    rw [hlow]
    simp [bind, Except.bind, pure, Except.pure]
  · unfold sales_recs
    cases h : firstVentIdx t with
    | none => simp [h]
    | some j =>
        by_cases hz : (zeroCountAt t j : ℚ) > (t.rows.length : ℚ) * (3 / 10) <;> simp [h, hz]

/-- Witness for C7 at the spec's strict-inequality boundary: with 4/10 zeros
the rotation alert fires, with exactly 3/10 zeros it does not. -/
theorem C7_witness :
    ((generate_recommendations demoZeroHeavyTable =
        .ok (stock_recs [] ++ sales_recs demoZeroHeavyTable ++ missing_recs demoZeroHeavyTable)) ∧
      (sales_recs demoZeroHeavyTable ≠ [] ↔ ∃ j, firstVentIdx demoZeroHeavyTable = some j ∧
        (zeroCountAt demoZeroHeavyTable j : ℚ) > (demoZeroHeavyTable.rows.length : ℚ) * (3 / 10))) ∧
    ((generate_recommendations demoZeroBoundaryTable =
        .ok (stock_recs [] ++ sales_recs demoZeroBoundaryTable ++ missing_recs demoZeroBoundaryTable)) ∧
      (sales_recs demoZeroBoundaryTable ≠ [] ↔ ∃ j, firstVentIdx demoZeroBoundaryTable = some j ∧
        (zeroCountAt demoZeroBoundaryTable j : ℚ) > (demoZeroBoundaryTable.rows.length : ℚ) * (3 / 10))) ∧
    sales_recs demoZeroHeavyTable = [rotationRecMsg 4] ∧
    sales_recs demoZeroBoundaryTable = [] :=
  ⟨C7_recommendation_rules demoZeroHeavyTable [] (by decide),
   C7_recommendation_rules demoZeroBoundaryTable [] (by decide),
   by with_unfolding_all decide, by with_unfolding_all decide⟩

theorem namedCols_names (t : Table) : (namedCols t).map Prod.fst = t.headers := by
  unfold namedCols
  rw [List.map_map]
  exact List.enum_map_snd t.headers

theorem mem_namedCols_fst (t : Table) (nc : String × List Value) (h : nc ∈ namedCols t) :
    nc.1 ∈ t.headers := by
  rw [← namedCols_names t]
  exact List.mem_map_of_mem _ h

theorem namedCols_fst_inj (t : Table) (hnd : t.headers.Nodup)
    {a b : String × List Value} (ha : a ∈ namedCols t) (hb : b ∈ namedCols t)
    (h : a.1 = b.1) : a = b := by
  have hmap : ((namedCols t).map Prod.fst).Nodup := by
    rw [namedCols_names]; exact hnd
  exact List.inj_on_of_nodup_map hmap ha hb h

theorem analyze_sales_eq_entries (t : Table) (nc₀ : String × List Value)
    (h₀ : nc₀ ∈ namedCols t) (hs₀ : isSalesName nc₀.1 = true) :
    analyze_sales t = .entries (((namedCols t).filter fun nc => isSalesName nc.1).filterMap
      fun nc => if isNumericCol nc.2 then some (nc.1, salesAgg nc.2) else none) := by
  unfold analyze_sales
  have hne : ((namedCols t).filter fun nc => isSalesName nc.1) ≠ [] := by
    intro hcontra
    have hmem : nc₀ ∈ (namedCols t).filter fun nc => isSalesName nc.1 :=
      List.mem_filter.mpr ⟨h₀, hs₀⟩
    rw [hcontra] at hmem
    simp at hmem
  simp only [List.isEmpty_iff]
  rw [if_neg hne]

theorem analyze_sales_error_of_no_sales_col (t : Table)
    (h : ∀ c ∈ t.headers, isSalesName c = false) :
    analyze_sales t = .errorEntry "No se encontraron columnas de ventas" := by
  unfold analyze_sales
  have hnil : ((namedCols t).filter fun nc => isSalesName nc.1) = [] := by
    rw [List.filter_eq_nil_iff]
    intro nc hnc
    simp [h nc.1 (mem_namedCols_fst t nc hnc)]
  simp [hnil]

theorem analyze_sales_skips_nonnumeric (t : Table) (hnd : t.headers.Nodup)
    (nc : String × List Value) (hmem : nc ∈ namedCols t) (hsales : isSalesName nc.1 = true)
    (hnn : isNumericCol nc.2 = false)
    (l : List (String × SalesAgg)) (hl : analyze_sales t = .entries l) (agg : SalesAgg) :
    (nc.1, agg) ∉ l := by
  intro hin
  rw [analyze_sales_eq_entries t nc hmem hsales] at hl
  injection hl with hl
  rw [← hl] at hin
  obtain ⟨nc', hnc', hf⟩ := List.mem_filterMap.mp hin
  have hmem' : nc' ∈ namedCols t := (List.mem_filter.mp hnc').1
  by_cases hnum' : isNumericCol nc'.2 = true
  · rw [if_pos hnum'] at hf
    have hpair : (nc'.1, salesAgg nc'.2) = (nc.1, agg) := Option.some.inj hf
    rw [Prod.mk.injEq] at hpair
    have h1 : nc'.1 = nc.1 := hpair.1
    have heq : nc' = nc := namedCols_fst_inj t hnd hmem' hmem h1
    rw [heq] at hnum'
    rw [hnum'] at hnn
    cases hnn
  · rw [if_neg hnum'] at hf
    cases hf

theorem identify_low_stock_no_stock_col (t : Table) (thr : ℚ)
    (h : ∀ c ∈ t.headers, nameMatches "stock" c = false) :
    identify_low_stock t thr = .ok [] := by
  unfold identify_low_stock
  have hnone : t.headers.findIdx? (nameMatches "stock") = none := by
    rw [List.findIdx?_eq_none_iff]
    exact h
  rw [hnone]

/-- A one-column table matched by no role keyword: every role is unresolved. -/
def demoBareTable : Table := ⟨["X"], [[Value.num 1]]⟩

/-- A table whose only sales-named column is non-numeric (object dtype). -/
def demoTextSalesTable : Table := ⟨["Ventas"], [[Value.str "n/a"]]⟩

/-- C8 counterexample: on a table where the sales role cannot be resolved the
sales sub-analysis is neither omitted nor zero/empty — it reports the in-band
error entry `{'error': 'No se encontraron columnas de ventas'}`. -/
theorem C8_counterexample :
    get_column_mapping demoBareTable.headers = [] ∧
    analyze_sales demoBareTable = .errorEntry "No se encontraron columnas de ventas" ∧
    analyze_sales demoBareTable ≠ .entries [] :=
  ⟨by decide, by decide, by decide⟩

/-- C8 (amended): degraded data availability never raises and never stops the
remaining sub-analyses, but the degraded value is not always zero/empty: with
no sales-named column the sales analysis reports an in-band `'error'` entry
(while the low-stock scan of a stock-less table is empty and the
recommendations still compute); a sales-named column that is non-numeric is
skipped silently — it contributes no entry at all. -/
theorem C8_data_unavailability_degrades :
    (∀ t : Table, (∀ c ∈ t.headers, isSalesName c = false) →
      (∀ c ∈ t.headers, nameMatches "stock" c = false) →
      analyze_sales t = .errorEntry "No se encontraron columnas de ventas" ∧
      identify_low_stock t 5 = .ok [] ∧
      generate_recommendations t = .ok (sales_recs t ++ missing_recs t)) ∧
    (∀ t : Table, t.headers.Nodup → ∀ nc ∈ namedCols t, isSalesName nc.1 = true →
      isNumericCol nc.2 = false →
      ∀ l, analyze_sales t = .entries l → ∀ agg, (nc.1, agg) ∉ l) := by
  constructor
  · intro t hsales hstock
    have hlow := identify_low_stock_no_stock_col t 5 hstock
    refine ⟨analyze_sales_error_of_no_sales_col t hsales, hlow, ?_⟩
    unfold generate_recommendations
    rw [hlow]
    simp [bind, Except.bind, pure, Except.pure, stock_recs]
  · intro t hnd nc hmem hsales hnn l hl agg
    exact analyze_sales_skips_nonnumeric t hnd nc hmem hsales hnn l hl agg

/-- Witness for C8: the unresolved-roles branch at the bare table, and the
skip-silently branch at the text-valued sales column. -/
theorem C8_witness :
    (analyze_sales demoBareTable = .errorEntry "No se encontraron columnas de ventas" ∧
      identify_low_stock demoBareTable 5 = .ok [] ∧
      generate_recommendations demoBareTable =
        .ok (sales_recs demoBareTable ++ missing_recs demoBareTable)) ∧
    ("Ventas", salesAgg [Value.str "n/a"]) ∉ ([] : List (String × SalesAgg)) :=
  ⟨C8_data_unavailability_degrades.1 demoBareTable (by decide) (by decide),
   C8_data_unavailability_degrades.2 demoTextSalesTable (by decide)
     ("Ventas", [Value.str "n/a"]) (by decide) (by decide) (by decide) [] (by decide)
     (salesAgg [Value.str "n/a"])⟩

/-- A table with one numeric sales column holding [0, 1, 2]. -/
def demoVentasTable : Table := ⟨["Ventas"], [[Value.num 0], [Value.num 1], [Value.num 2]]⟩

/-- C6 counterexample: the engine stores pandas `std()` — the SAMPLE standard
deviation (`ddof = 1`) — not the population standard deviation the claim
names.  On the numeric sales column [0, 1, 2] the stored std is √1 while the
population std is √(2/3), and √(2/3) ≠ √1. -/
theorem C6_counterexample :
    analyze_sales demoVentasTable = .entries [("Ventas",
      { total := 3, mean := .num 1, median := .num 1, std_sq := .num 1,
        max := .num 2, min := .num 0, zero_sales := 1, top_products := [2, 1, 0] })] ∧
    populationVariance [Value.num 0, Value.num 1, Value.num 2] = .num (2 / 3) ∧
    Real.sqrt (2 / 3) ≠ Real.sqrt 1 := by
  refine ⟨by with_unfolding_all decide, by with_unfolding_all decide, ne_of_lt ?_⟩
  exact Real.sqrt_lt_sqrt (by norm_num) (by norm_num)

/-- C6 (amended): for every table with pairwise-distinct headers, every
NUMERIC sales-named column contributes to the sales analysis exactly the
record (sum, mean, median, SAMPLE standard deviation — pandas `ddof = 1`,
carried as its square `std_sq` —, max, min, exact-zero count, top-20 values),
and every non-numeric sales-named column is skipped silently: it contributes
no entry and raises no error. -/
theorem C6_sales_report_fields (t : Table) (hnd : t.headers.Nodup)
    (nc : String × List Value) (hmem : nc ∈ namedCols t) (hsales : isSalesName nc.1 = true) :
    ∃ l, analyze_sales t = .entries l ∧
      (isNumericCol nc.2 = true →
        (nc.1, { total := pdSum nc.2, mean := pdMean nc.2, median := pdMedian nc.2,
                 std_sq := pdVarSample nc.2, max := pdMax nc.2, min := pdMin nc.2,
                 zero_sales := zeroCount nc.2,
                 top_products := get_top_products nc.2 : SalesAgg }) ∈ l) ∧
      (isNumericCol nc.2 = false → ∀ agg, (nc.1, agg) ∉ l) := by
  refine ⟨_, analyze_sales_eq_entries t nc hmem hsales, ?_, ?_⟩
  · intro hnum
    apply List.mem_filterMap.mpr
    exact ⟨nc, List.mem_filter.mpr ⟨hmem, hsales⟩, by rw [if_pos hnum]; rfl⟩
  · intro hnn agg
    exact analyze_sales_skips_nonnumeric t hnd nc hmem hsales hnn _
      (analyze_sales_eq_entries t nc hmem hsales) agg

/-- Witness for C6 at the numeric column [0, 1, 2] and at the non-numeric
sales column: the aggregate record appears for the numeric column, nothing
appears for the text column. -/
theorem C6_witness :
    (∃ l, analyze_sales demoVentasTable = .entries l ∧
      (isNumericCol [Value.num 0, Value.num 1, Value.num 2] = true →
        ("Ventas", { total := pdSum [Value.num 0, Value.num 1, Value.num 2],
                     mean := pdMean [Value.num 0, Value.num 1, Value.num 2],
                     median := pdMedian [Value.num 0, Value.num 1, Value.num 2],
                     std_sq := pdVarSample [Value.num 0, Value.num 1, Value.num 2],
                     max := pdMax [Value.num 0, Value.num 1, Value.num 2],
                     min := pdMin [Value.num 0, Value.num 1, Value.num 2],
                     zero_sales := zeroCount [Value.num 0, Value.num 1, Value.num 2],
                     top_products := get_top_products [Value.num 0, Value.num 1, Value.num 2] :
                     SalesAgg }) ∈ l) ∧
      (isNumericCol [Value.num 0, Value.num 1, Value.num 2] = false →
        ∀ agg, ("Ventas", agg) ∉ l)) ∧
    (∃ l, analyze_sales demoTextSalesTable = .entries l ∧
      (isNumericCol [Value.str "n/a"] = true →
        ("Ventas", { total := pdSum [Value.str "n/a"], mean := pdMean [Value.str "n/a"],
                     median := pdMedian [Value.str "n/a"], std_sq := pdVarSample [Value.str "n/a"],
                     max := pdMax [Value.str "n/a"], min := pdMin [Value.str "n/a"],
                     zero_sales := zeroCount [Value.str "n/a"],
                     top_products := get_top_products [Value.str "n/a"] : SalesAgg }) ∈ l) ∧
      (isNumericCol [Value.str "n/a"] = false → ∀ agg, ("Ventas", agg) ∉ l)) :=
  ⟨C6_sales_report_fields demoVentasTable (by decide)
      ("Ventas", [Value.num 0, Value.num 1, Value.num 2]) (by decide) (by decide),
   C6_sales_report_fields demoTextSalesTable (by decide)
      ("Ventas", [Value.str "n/a"]) (by decide) (by decide)⟩

/-- The spec's turnover convention, written from its words: sales divided by
stock, with a stock of exactly 0 replaced by 1 before the division. -/
def turnoverSpec (s k : ℚ) : ℚ := s / (if k = 0 then 1 else k)

theorem rotation_mapM_ok (sj kj : Nat) (rows : List (List Value))
    (h : ∀ r ∈ rows, (∀ s, cell r sj ≠ Value.str s) ∧ (∀ s, cell r kj ≠ Value.str s)) :
    (rows.mapM fun r => valDiv (cell r sj) (replaceZero (cell r kj))) =
      .ok (rows.map fun r =>
        match cell r sj, cell r kj with
        | .num s, .num k => .num (turnoverSpec s k)
        | _, _ => .missing) := by
  induction rows with
  | nil => rfl
  | cons r rs ih =>
      rw [List.mapM_cons, ih fun r' h' => h r' (List.mem_cons_of_mem _ h')]
      have hr := h r (List.mem_cons_self _ _)
      cases hcs : cell r sj with
      | str s => exact absurd hcs (hr.1 s)
      | num s =>
          cases hck : cell r kj with
          | str s' => exact absurd hck (hr.2 s')
          | num k =>
              by_cases hk0 : k = 0 <;>
                simp [valDiv, replaceZero, hcs, hck, hk0, turnoverSpec,
                  bind, Except.bind, pure, Except.pure]
          | missing =>
              simp [valDiv, replaceZero, hcs, hck, bind, Except.bind, pure, Except.pure]
      | missing =>
          cases hck : cell r kj with
          | str s' => exact absurd hck (hr.2 s')
          | num k =>
              by_cases hk0 : k = 0 <;>
                simp [valDiv, replaceZero, hcs, hck, hk0,
                  bind, Except.bind, pure, Except.pure]
          | missing =>
              simp [valDiv, replaceZero, hcs, hck, bind, Except.bind, pure, Except.pure]

/-- C5: when the rotation analysis finds its sales and stock columns (both
numeric) and the hardcoded `Producto`/`Laboratorio` output columns exist, it
succeeds, and every row's turnover cell equals sales divided by stock with a
stock of exactly 0 replaced by 1 before dividing — so sales 10 with stock 0
gives 10, and sales 0 with stock 0 gives 0 (never infinity or NaN). -/
theorem C5_rotation_turnover_convention (t : Table) (sj kj pj lj : Nat)
    (hs : find_column t ["cajas vend. total"] = some sj)
    (hk : find_column t ["cajas stock total"] = some kj)
    (hnums : isNumericCol (colValues t sj) = true)
    (hnumk : isNumericCol (colValues t kj) = true)
    (hp : t.headers.findIdx? (· == "Producto") = some pj)
    (hl : t.headers.findIdx? (· == "Laboratorio") = some lj) :
    ∃ fr, analyze_product_rotation t = .ok (some fr) ∧
      fr.rotacion = t.rows.map fun r =>
        match cell r sj, cell r kj with
        | .num s, .num k => .num (turnoverSpec s k)
        | _, _ => .missing := by
  unfold analyze_product_rotation
  rw [hs, hk]
  dsimp only
  rw [rotation_mapM_ok sj kj t.rows fun r hr =>
    ⟨fun s => numericCol_no_str t sj hnums r hr s, fun s => numericCol_no_str t kj hnumk r hr s⟩]
  rw [hp, hl]
  dsimp only
  simp only [bind, Except.bind, pure, Except.pure]
  exact ⟨_, rfl, rfl⟩

/-- The rotation demonstration table: sales [10, 0] against stock [0, 0]. -/
def demoRotationTable : Table :=
  ⟨["Producto", "Laboratorio", "Cajas Vend. Total", "Cajas Stock Total"],
   [[Value.str "A", Value.str "L", Value.num 10, Value.num 0],
    [Value.str "B", Value.str "L", Value.num 0, Value.num 0]]⟩

/-- Witness for C5: on the demonstration table the rotation column is exactly
[10, 0] — sales 10 / stock 0 ↦ 10 and sales 0 / stock 0 ↦ 0. -/
theorem C5_witness :
    (∃ fr, analyze_product_rotation demoRotationTable = .ok (some fr) ∧
      fr.rotacion = demoRotationTable.rows.map fun r =>
        match cell r 2, cell r 3 with
        | .num s, .num k => .num (turnoverSpec s k)
        | _, _ => .missing) ∧
    analyze_product_rotation demoRotationTable = .ok (some
      { producto := [Value.str "A", Value.str "B"],
        laboratorio := [Value.str "L", Value.str "L"],
        sales := [Value.num 10, Value.num 0],
        stock := [Value.num 0, Value.num 0],
        rotacion := [Value.num 10, Value.num 0],
        estado_rotacion := [some "Muy Alta", some "Sin ventas"] }) :=
  ⟨C5_rotation_turnover_convention demoRotationTable 2 3 0 1
      (by decide) (by decide) (by decide) (by decide) (by decide) (by decide),
   by with_unfolding_all decide⟩

end AnalyticsSuite
